import Mathlib

/-!
# Verification of the `smartcare` T3/SmartCare client library

This file is a shallow embedding, in Lean 4, of the core of the
`ladenedge/smartcare` JavaScript client library: the token-derivation
helper (`lib/t3util.js` / `lib/auth-token.js`), the request-option and
authenticated-header assembly (`lib/t3util.js`), the case-insensitive
header lookup (`lib/insensitive-get.js`), the argument validators
(`lib/validate.js`), and the `SmartCare` client class (the
callback-pair variant: `login`, `refreshTouchmap`, `search`,
`getAccount`, `getStatements`, together with the `isAuthenticated` and
`hasActions` accessors), plus the `getStatements` method of the
continuation-callback variant (`index.js`).

JavaScript specifics are embedded explicitly:
* machine-level 32-bit arithmetic in SHA-1 is `Nat` arithmetic taken
  `% 2 ^ 32`;
* a JavaScript object used as a map is an insertion-ordered association
  list with unique keys (`jsSet` overwrites in place, `jsGet` looks up);
* an absent property / `undefined` is `Option.none` or a dedicated
  `undefinedVal` constructor where the code stores the lookup result;
* the asynchronous callbacks are made explicit: each HTTP round-trip is
  an input (`Outcome`), and an operation returns the final client state
  together with a trace recording every request issued and every
  invocation of the `onError` / `onSuccess` channels, in order.
-/

namespace Smartcare

/-! ## Bytes, UTF-8, SHA-1 and Base64 (CryptoJS counterparts)

`lib/t3util.js` computes
`CryptoJS.SHA1(CryptoJS.enc.Utf8.parse(raw)).toString(CryptoJS.enc.Base64)`.
We embed UTF-8 encoding, the standard SHA-1 digest, and standard Base64.
-/

/-- UTF-8 encoding of one Unicode scalar value, as a list of byte values. -/
def utf8Char (c : Char) : List Nat :=
  let n := c.toNat
  if n < 0x80 then [n]
  else if n < 0x800 then
    [0xC0 + n / 0x40, 0x80 + n % 0x40]
  else if n < 0x10000 then
    [0xE0 + n / 0x1000, 0x80 + (n / 0x40) % 0x40, 0x80 + n % 0x40]
  else
    [0xF0 + n / 0x40000, 0x80 + (n / 0x1000) % 0x40,
     0x80 + (n / 0x40) % 0x40, 0x80 + n % 0x40]

/-- UTF-8 encoding of a string (`CryptoJS.enc.Utf8.parse`). -/
def utf8Bytes (s : String) : List Nat :=
  s.toList.flatMap utf8Char

/-- 32-bit truncation. -/
def w32 (n : Nat) : Nat := n % 2 ^ 32

/-- 32-bit left rotation. -/
def rotl (k x : Nat) : Nat :=
  w32 (x * 2 ^ k) + (w32 x) / 2 ^ (32 - k)

/-- 32-bit bitwise complement. -/
def not32 (x : Nat) : Nat := 2 ^ 32 - 1 - w32 x

/-- SHA-1 padding: append `0x80`, zero bytes to 56 mod 64, then the
64-bit big-endian bit length. -/
def sha1Pad (msg : List Nat) : List Nat :=
  let len := msg.length
  let zeros := (64 - (len + 9) % 64) % 64
  let bitLen := len * 8
  msg ++ [0x80] ++ List.replicate zeros 0 ++
    [w32 (bitLen / 2 ^ 56) % 256, (bitLen / 2 ^ 48) % 256,
     (bitLen / 2 ^ 40) % 256, (bitLen / 2 ^ 32) % 256,
     (bitLen / 2 ^ 24) % 256, (bitLen / 2 ^ 16) % 256,
     (bitLen / 2 ^ 8) % 256, bitLen % 256]

/-- Group a byte list into big-endian 32-bit words. -/
def bytesToWords : List Nat → List Nat
  | a :: b :: c :: d :: rest => (((a * 256 + b) * 256 + c) * 256 + d) :: bytesToWords rest
  | _ => []

/-- Split a list into chunks of 16 elements (fueled structural recursion;
the fuel is the list length, which suffices). -/
def chunk16 : Nat → List Nat → List (List Nat)
  | 0, _ => []
  | _, [] => []
  | fuel + 1, ws => ws.take 16 :: chunk16 fuel (ws.drop 16)

/-- SHA-1 message-schedule extension of a 16-word block to 80 words. -/
def sha1Extend (ws : List Nat) : List Nat :=
  (List.range 64).foldl
    (fun acc _ =>
      let n := acc.length
      acc ++ [rotl 1 (Nat.xor (Nat.xor (acc.getD (n - 3) 0) (acc.getD (n - 8) 0))
        (Nat.xor (acc.getD (n - 14) 0) (acc.getD (n - 16) 0)))])
    ws

/-- The SHA-1 round function `f` for round `t`. -/
def sha1F (t b c d : Nat) : Nat :=
  if t < 20 then Nat.lor (Nat.land b c) (Nat.land (not32 b) d)
  else if t < 40 then Nat.xor (Nat.xor b c) d
  else if t < 60 then Nat.lor (Nat.lor (Nat.land b c) (Nat.land b d)) (Nat.land c d)
  else Nat.xor (Nat.xor b c) d

/-- The SHA-1 round constant `K` for round `t`. -/
def sha1K (t : Nat) : Nat :=
  if t < 20 then 0x5A827999
  else if t < 40 then 0x6ED9EBA1
  else if t < 60 then 0x8F1BBCDC
  else 0xCA62C1D6

/-- Process one 64-byte block, updating the five-word state. -/
def sha1Block (h : Nat × Nat × Nat × Nat × Nat) (block : List Nat) :
    Nat × Nat × Nat × Nat × Nat :=
  let ws := sha1Extend block
  let ⟨h0, h1, h2, h3, h4⟩ := h
  let fin := (List.range 80).foldl
    (fun st t =>
      let ⟨a, b, c, d, e⟩ := st
      let tmp := w32 (rotl 5 a + sha1F t b c d + e + sha1K t + ws.getD t 0)
      (tmp, a, rotl 30 b, c, d))
    (h0, h1, h2, h3, h4)
  let ⟨a, b, c, d, e⟩ := fin
  (w32 (h0 + a), w32 (h1 + b), w32 (h2 + c), w32 (h3 + d), w32 (h4 + e))

/-- Big-endian bytes of a 32-bit word. -/
def wordBytes (x : Nat) : List Nat :=
  [(x / 2 ^ 24) % 256, (x / 2 ^ 16) % 256, (x / 2 ^ 8) % 256, x % 256]

/-- SHA-1 digest of a byte list, as the 20 digest bytes. -/
def sha1 (msg : List Nat) : List Nat :=
  let padded := sha1Pad msg
  let blocks := chunk16 padded.length (bytesToWords padded)
  let ⟨h0, h1, h2, h3, h4⟩ := blocks.foldl sha1Block
    (0x67452301, 0xEFCDAB89, 0x98BADCFE, 0x10325476, 0xC3D2E1F0)
  wordBytes h0 ++ wordBytes h1 ++ wordBytes h2 ++ wordBytes h3 ++ wordBytes h4

/-- The standard Base64 alphabet. -/
def base64Alphabet : List Char :=
  "ABCDEFGHIJKLMNOPQRSTUVWXYZabcdefghijklmnopqrstuvwxyz0123456789+/".toList

/-- The Base64 character for a 6-bit value. -/
def b64Char (n : Nat) : Char := base64Alphabet.getD n '='

/-- Base64-encode a byte list (fueled structural recursion on three-byte
groups; the fuel is the list length, which suffices). -/
def base64Chunks : Nat → List Nat → List Char
  | 0, _ => []
  | _, [] => []
  | _, [a] =>
    [b64Char (a / 4), b64Char ((a % 4) * 16), '=', '=']
  | _, [a, b] =>
    [b64Char (a / 4), b64Char ((a % 4) * 16 + b / 16), b64Char ((b % 16) * 4), '=']
  | fuel + 1, a :: b :: c :: rest =>
    b64Char (a / 4) :: b64Char ((a % 4) * 16 + b / 16) ::
      b64Char ((b % 16) * 4 + c / 64) :: b64Char (c % 64) ::
      base64Chunks fuel rest

/-- Base64 encoding of a byte list (`CryptoJS.enc.Base64`). -/
def base64Encode (bs : List Nat) : String :=
  String.mk (base64Chunks bs.length bs)

/-! ## Configuration and token derivation (`lib/t3util.js`) -/

/-- The per-service endpoints of the `SmartCare` configuration
(`endpointsSchema`); an absent optional endpoint is `none`. -/
structure Endpoints where
  login : Option String := none
  search : Option String := none
  account : Option String := none
  proxy : Option String := none
deriving DecidableEq, Repr

/-- The validated `SmartCare` configuration (`configSchema`). `sessionId`
is not in the schema, but `validateConfig` returns `Object.assign({}, config)`,
so a caller-supplied `sessionId` passes through and is consumed by
`t3util.requestOptions`. -/
structure Config where
  endpoints : Endpoints := {}
  customer : String
  app : String
  secret : String
  sessionId : Option String := none
  agent : Option String := none
  verbose : Bool := false
deriving DecidableEq, Repr

/-- `t3util.createToken(config, sessionId)`:
`base64(SHA1(utf8(secret + " " + app + ":" + customer + ":" + sessionId)))`.
(The `verbose` branch only echoes the raw input and output to stderr.) -/
def createToken (cfg : Config) (sessionId : String) : String :=
  let raw := cfg.secret ++ " " ++ cfg.app ++ ":" ++ cfg.customer ++ ":" ++ sessionId
  base64Encode (sha1 (utf8Bytes raw))

/-! ## JavaScript objects as association lists -/

/-- JavaScript property assignment `obj[k] = v` on an object embedded as an
insertion-ordered association list: overwrite in place, else append. -/
def jsSet {α : Type} : List (String × α) → String → α → List (String × α)
  | [], k, v => [(k, v)]
  | (k', v') :: rest, k, v =>
    if k' == k then (k', v) :: rest else (k', v') :: jsSet rest k v

/-- JavaScript property read `obj[k]`: `some` value, or `none` for
`undefined`. -/
def jsGet {α : Type} (c : List (String × α)) (k : String) : Option α :=
  (c.find? (fun kv => kv.1 == k)).map (·.2)

/-- `Object.assign(base, extra)`: merge `extra`'s properties into `base`. -/
def jsMerge {α : Type} (base extra : List (String × α)) : List (String × α) :=
  extra.foldl (fun h kv => jsSet h kv.1 kv.2) base

/-- ASCII lower-casing of one character (agrees with JavaScript
`toLowerCase()` on the ASCII range, which covers every string the client
compares case-insensitively). -/
def lowerChar (c : Char) : Char :=
  if 65 ≤ c.toNat ∧ c.toNat ≤ 90 then Char.ofNat (c.toNat + 32) else c

/-- Lower-casing of a string, character by character. -/
def lowerString (s : String) : String :=
  String.mk (s.toList.map lowerChar)

/-- JavaScript `String.prototype.trim()`: strip leading and trailing
whitespace. -/
def trimString (s : String) : String :=
  String.mk (((s.toList.dropWhile Char.isWhitespace).reverse.dropWhile
    Char.isWhitespace).reverse)

/-- `insensitiveGet(obj, propName)` from `lib/insensitive-get.js`: the value
of the first property whose name matches case-insensitively. -/
def insensitiveGet (obj : List (String × String)) (propName : String) : Option String :=
  (obj.find? (fun kv => lowerString kv.1 == lowerString propName)).map (·.2)

/-! ## Errors, validators (`lib/validate.js`) -/

/-- A value delivered to the `onError` channel: either the transport's own
error object passed through unchanged, or a `new Error(msg)` the library
constructs. -/
inductive JsError where
  | transport (e : String)
  | mk (msg : String)
deriving DecidableEq, Repr

/-- `validator.validateString(s, argName)`: `undefined`/`null` and
empty-after-trim strings throw; otherwise the trimmed string is returned.
(The non-string-typed case cannot arise in this typed embedding.) -/
def validateStringE (s : Option String) (argName : String) : Except JsError String :=
  match s with
  | none => .error (.mk ("Parameter \x27" ++ argName ++ "\x27 was undefined or null"))
  | some s =>
    let t := trimString s
    if t = "" then .error (.mk ("Parameter \x27" ++ argName ++ "\x27 must be non-empty"))
    else .ok t

/-- `validator.validateNumber(i, min, argName)`: values below `min` throw.
(`undefined`/`null`/non-number cannot arise in this typed embedding.) -/
def validateNumberE (i : Int) (min : Int) (argName : String) : Except JsError Unit :=
  if i < min then
    .error (.mk ("Parameter \x27" ++ argName ++ "\x27 must be at least " ++ toString min))
  else .ok ()

/-! ## Request options and authenticated headers (`lib/t3util.js`) -/

/-- `config.agent || default` — JavaScript `||` falls through on the empty
string as well as on an absent value. -/
def jsOr (o : Option String) (d : String) : String :=
  match o with
  | some s => if s = "" then d else s
  | none => d

/-- The default `User-Agent`. The version comes from `package.json`, which
is not among the embedded sources; no claim depends on this value. -/
def defaultUserAgent : String := "NodeJS smartcare v1.0.0"

/-- An HTTP request as issued by the client: the observable arguments of
`request.get`/`request.post`. -/
structure Request where
  method : String := "GET"
  url : String := ""
  headers : List (String × String) := []
  qs : List (String × String) := []
  jsonBody : List (String × String) := []
deriving DecidableEq, Repr

/-- The options object assembled by `t3util.requestOptions`. -/
structure Opts where
  headers : List (String × String)
deriving DecidableEq, Repr

/-- `var sessionId = config.sessionId || guid()`. The call `guid()` draws a
fresh random UUID; the draw is embedded as reading `g k` from a stream `g`
of pre-drawn values, so that the nondeterminism is explicit. JavaScript `||`
falls through on an absent or empty (falsy) `sessionId`. -/
def chosenSession (cfg : Config) (g : Nat → String) (k : Nat) : String :=
  match cfg.sessionId with
  | some s => if s = "" then g k else s
  | none => g k

/-- The stream index after `requestOptions`: advanced exactly when
`guid()` was drawn. -/
def nextIndex (cfg : Config) (k : Nat) : Nat :=
  match cfg.sessionId with
  | some s => if s = "" then k + 1 else k
  | none => k + 1

/-- `t3util.requestOptions(config)`, together with the advanced draw-stream
index. -/
def requestOptions (cfg : Config) (g : Nat → String) (k : Nat) : Opts × Nat :=
  ({ headers := [
      ("X-SpeechCycle-SmartCare-CustomerID", cfg.customer),
      ("X-SpeechCycle-SmartCare-ApplicationID", cfg.app),
      ("X-SpeechCycle-SmartCare-Platform", "All"),
      ("X-SpeechCycle-SmartCare-Culture", "en-us"),
      ("X-SpeechCycle-SmartCare-SessionID", chosenSession cfg g k),
      ("User-Agent", jsOr cfg.agent defaultUserAgent)] }, nextIndex cfg k)

/-- The session-ID header name. -/
def sessionHeader : String := "X-SpeechCycle-SmartCare-SessionID"

/-- The session-ID header value of a request. -/
def sessionOf (req : Request) : Option String := jsGet req.headers sessionHeader

/-! ## Authentication state -/

/-- The body of a successful login response (`AuthToken` typedef). Only the
fields the client itself consumes are listed; `T3Token` is optional because
a 200 body need not carry one. -/
structure AuthToken where
  Value : String := ""
  T3Token : Option String := none
  AdditionalValues : List String := []
deriving DecidableEq, Repr

/-- `isAuthenticated`: `!!this.auth && !!this.auth.T3Token &&
this.auth.T3Token.length > 0`. -/
def isAuthenticatedA : Option AuthToken → Bool
  | some a =>
    match a.T3Token with
    | some t => !(t == "") && decide (t.length > 0)
    | none => false
  | none => false

/-- `t3util.authHeaders(auth)`. (`auth.T3Token` is always present and
non-empty where this is called, behind the `isAuthenticated` guard.) -/
def authHeaders (auth : AuthToken) : List (String × String) :=
  [("X-SpeechCycle-SmartCare-UserID", auth.Value),
   ("X-SpeechCycle-SmartCare-UserName", auth.Value),
   ("X-SpeechCycle-SmartCare-T3Token", auth.T3Token.getD "")] ++
  (if auth.AdditionalValues.length > 0 then
    [("X-SpeechCycle-SmartCare-AdditionalValues", String.intercalate "," auth.AdditionalValues)]
   else [])

/-! ## Touchmap cache and search results -/

/-- An action object from the touchmap response (`{Name, ...}`); the fields
the client does not inspect are carried opaquely. -/
structure TouchAction where
  Name : String
  fields : List (String × String) := []
deriving DecidableEq, Repr

/-- A value stored in the `this.actions` object: the `refreshTime` date or
an action object. -/
inductive CacheVal where
  | time (d : Nat)
  | act (a : TouchAction)
deriving DecidableEq, Repr

/-- The `this.actions` object. -/
abbrev Cache := List (String × CacheVal)

/-- The value of an `Action` field of a search result or service item:
a bare name string, an action object, a `Date` object, or `undefined`. -/
inductive ActionField where
  | str (s : String)
  | obj (a : TouchAction)
  | date (d : Nat)
  | undefinedVal
deriving DecidableEq, Repr

/-- `typeof x === 'object'` for an `Action` field value (action objects and
`Date`s are objects; strings and `undefined` are not). -/
def typeofIsObject : ActionField → Bool
  | .obj _ => true
  | .date _ => true
  | _ => false

/-- The property key `this.actions[a.Action]` uses: a string is used as is,
`undefined` coerces to the key `"undefined"`. (The object cases are never
consulted: they are guarded by `typeof a.Action !== 'object'`.) -/
def propKey : ActionField → String
  | .str s => s
  | .undefinedVal => "undefined"
  | .obj _ => "[object Object]"
  | .date _ => "[object Date]"

/-- `this.actions[k]` as an `Action` field value: the cached action object,
the `refreshTime` date, or `undefined` when the key is absent. -/
def cacheFetch (c : Cache) (k : String) : ActionField :=
  match jsGet c k with
  | some (.act a) => .obj a
  | some (.time d) => .date d
  | none => .undefinedVal

/-- A service item of the touchmap response (`{Action: <name>, ...}`). -/
structure ServiceItem where
  Action : ActionField
  fields : List (String × String) := []
deriving DecidableEq, Repr

/-- The body of a touchmap (`GET <search>/touch-map`) response. -/
structure TouchBody where
  ServiceItems : List ServiceItem := []
  Actions : List TouchAction := []
deriving DecidableEq, Repr

/-- One entry of a search response (`{Action: <name-or-object>, ...}`). -/
structure SearchResult where
  Action : ActionField
  fields : List (String × String) := []
deriving DecidableEq, Repr

/-- The body of a search (`GET <search>/simple`) response. -/
structure SearchBody where
  Results : List SearchResult := []
deriving DecidableEq, Repr

/-- JavaScript `a.Name == si.Action` for an action `a` and a service item's
`Action` reference: loose equality holds exactly for an equal name string
(equality between a string and an object/`undefined` reference is false
here). -/
def eqNameAction (a : TouchAction) (f : ActionField) : Bool :=
  match f with
  | .str s => a.Name == s
  | _ => false

/-- The `this.menu` projection built by `refreshTouchmap`: service items
whose action name resolves in `body.Actions` keep the resolved object,
the rest are dropped. -/
def buildMenu (body : TouchBody) : List ServiceItem :=
  (body.ServiceItems.filter fun si =>
    (body.Actions.find? (eqNameAction · si.Action)).isSome).map fun si =>
      { si with
        Action := match body.Actions.find? (eqNameAction · si.Action) with
          | some a => ActionField.obj a
          | none => si.Action }

/-- The `this.actions` object built by `refreshTouchmap`:
`{refreshTime: new Date()}` then `body.Actions.forEach(a => this.actions[a.Name] = a)`. -/
def buildActions (now : Nat) (acts : List TouchAction) : Cache :=
  acts.foldl (fun c a => jsSet c a.Name (CacheVal.act a))
    [("refreshTime", CacheVal.time now)]

/-- The in-place rewrite `search` applies to each result:
`if (typeof a.Action !== 'object') a.Action = this.actions[a.Action]`. -/
def resolveResults (c : Cache) (rs : List SearchResult) : List SearchResult :=
  rs.map fun r =>
    if typeofIsObject r.Action then r
    else { r with Action := cacheFetch c (propKey r.Action) }

/-! ## Client state and operations (`SmartCare` class, callback-pair variant) -/

/-- The mutable state of a `SmartCare` client instance: `this.auth`,
`this.actions`, `this.menu`. All start absent. -/
structure SCState where
  auth : Option AuthToken := none
  actions : Option Cache := none
  menu : Option (List ServiceItem) := none
deriving DecidableEq, Repr

/-- `isAuthenticated` on the client state. -/
def isAuthenticatedS (st : SCState) : Bool := isAuthenticatedA st.auth

/-- `hasActions`: `!!this.actions && this.actions.hasOwnProperty('refreshTime')`. -/
def hasActionsS (st : SCState) : Bool :=
  match st.actions with
  | some c => (jsGet c "refreshTime").isSome
  | none => false

/-- An HTTP response as delivered to a callback: an optional status code
(`rsp.statusCode` may be absent), headers, and the parsed body. -/
structure Response (β : Type) where
  statusCode : Option Nat := none
  headers : List (String × String) := []
  body : β
deriving DecidableEq, Repr

/-- One HTTP round-trip as seen by the response callback: a transport
error (`rsp` and `body` then undefined), or a response. -/
inductive Outcome (β : Type) where
  | err (e : String)
  | ok (r : Response β)
deriving DecidableEq, Repr

/-- `authHeader.match(/^T3Auth /i)`: case-insensitive prefix match. -/
def challengeMatch (v : String) : Bool :=
  (lowerString v).toList.take 7 == "t3auth ".toList

/-- The round-1 challenge check `!authHeader || !authHeader.match(/^T3Auth /i)`,
negated: the header value exists, is truthy, and matches. -/
def challengeOk : Option String → Bool
  | some v => !(v == "") && challengeMatch v
  | none => false

/-- Everything observable about one `login(...)` call: the requests issued,
the `onError` and `onSuccess` invocations in order, and whether the callback
chain crashed with an uncaught exception (dereferencing `rsp.headers` of an
undefined `rsp`). -/
structure LoginTrace where
  requests : List Request := []
  errors : List JsError := []
  successes : List AuthToken := []
  crashed : Bool := false
deriving DecidableEq, Repr

/-- The body of `login(username, password, responseHandlers)` after argument
validation, transcribed line by line. The two `request.post` round trips
are the inputs `r1` (whose body the code never reads) and `r2`. The missing
`return` statements of the source (after `onError(error)` and after
`onError(new Error('Challenge not found'))` in the first callback) are
preserved: control falls through into the second round. -/
def loginCore (cfg : Config) (st : SCState) (g : Nat → String) (k : Nat)
    (username password loginUrl : String)
    (r1 : Outcome Unit) (r2 : Outcome AuthToken) : SCState × LoginTrace × Nat :=
  let opts := (requestOptions cfg g k).1
  let k' := (requestOptions cfg g k).2
  let body := [("ID", username), ("Password", password), ("AdditionalValuesVersion", "2")]
  let req1 : Request := { method := "POST", url := loginUrl, headers := opts.headers,
                          jsonBody := body }
  match r1 with
  | .err e =>
    -- `onError(error)` without `return`; the next line reads `rsp.headers`
    -- of an undefined `rsp` and throws, ending the chain.
    (st, { requests := [req1], errors := [.transport e], crashed := true }, k')
  | .ok r =>
    let authHeader := insensitiveGet r.headers "WWW-Authenticate"
    let challengeErrs :=
      if challengeOk authHeader then [] else [JsError.mk "Challenge not found"]
    -- no `return` here either: the second round is issued regardless.
    let sessionId := (jsGet opts.headers sessionHeader).getD "undefined"
    let token := createToken cfg sessionId
    let authz := (authHeader.getD "undefined") ++ ", token=" ++ token
    let headers2 := jsSet opts.headers "Authorization" authz
    let req2 : Request := { method := "POST", url := loginUrl, headers := headers2,
                            jsonBody := body }
    match r2 with
    | .err e2 =>
      (st, { requests := [req1, req2], errors := challengeErrs ++ [.transport e2] }, k')
    | .ok r2 =>
      if r2.statusCode = some 200 then
        ({ st with auth := some r2.body },
         { requests := [req1, req2], errors := challengeErrs, successes := [r2.body] }, k')
      else
        (st, { requests := [req1, req2],
               errors := challengeErrs ++ [.mk "Authentication failed"] }, k')

/-- `login(username, password, responseHandlers)`: the validations, then
`loginCore`. The response-handler object is embedded as the trace's two
channels and is always function-valued here, so `validateResponseHandlers`
never throws in this model. -/
def login (cfg : Config) (st : SCState) (g : Nat → String) (k : Nat)
    (username password : Option String) (r1 : Outcome Unit) (r2 : Outcome AuthToken) :
    Except JsError (SCState × LoginTrace × Nat) :=
  match validateStringE username "username" with
  | .error e => .error e
  | .ok u =>
    match validateStringE password "password" with
    | .error e => .error e
    | .ok p =>
      match validateStringE cfg.endpoints.login "login endpoint" with
      | .error e => .error e
      | .ok loginUrl => .ok (loginCore cfg st g k u p loginUrl r1 r2)

/-- Everything observable about one `refreshTouchmap(...)` call. `succeeded`
records the sole `onSuccess()` invocation (it carries no payload). -/
structure RefreshTrace where
  requests : List Request := []
  errors : List JsError := []
  succeeded : Bool := false
deriving DecidableEq, Repr

/-- The body of `refreshTouchmap(responseHandlers)` after validation:
one GET to `<search>/touch-map`; on 200, `this.menu` and `this.actions`
are rebuilt and `onSuccess()` fires. -/
def refreshCore (cfg : Config) (st : SCState) (g : Nat → String) (k : Nat)
    (searchUrl : String) (now : Nat) (o : Outcome TouchBody) :
    SCState × RefreshTrace × Nat :=
  let opts := (requestOptions cfg g k).1
  let k' := (requestOptions cfg g k).2
  let req : Request := { url := searchUrl ++ "/touch-map", headers := opts.headers }
  match o with
  | .err e => (st, { requests := [req], errors := [.transport e] }, k')
  | .ok r =>
    if r.statusCode = some 200 then
      ({ st with
          menu := some (buildMenu r.body),
          actions := some (buildActions now r.body.Actions) },
       { requests := [req], succeeded := true }, k')
    else
      (st, { requests := [req], errors := [.mk "Touchmap refresh failed"] }, k')

/-- `refreshTouchmap(responseHandlers)`: validation, then `refreshCore`. -/
def refreshTouchmap (cfg : Config) (st : SCState) (g : Nat → String) (k : Nat)
    (now : Nat) (o : Outcome TouchBody) :
    Except JsError (SCState × RefreshTrace × Nat) :=
  match validateStringE cfg.endpoints.search "search endpoint" with
  | .error e => .error e
  | .ok searchUrl => .ok (refreshCore cfg st g k searchUrl now o)

/-- Everything observable about one `search(...)` call. -/
structure SearchTrace where
  requests : List Request := []
  refreshCount : Nat := 0
  searchIssued : Bool := false
  errors : List JsError := []
  successes : List SearchBody := []
deriving DecidableEq, Repr

/-- The `performSearch` closure inside `search`: one GET to
`<search>/simple` with query string `{text: query}`; on 200 each result's
`Action` is rewritten through the cache `c` (`this.actions` at response
time) and the rewritten body goes to `onSuccess`. Returns the request,
the error-channel and success-channel payloads, and the advanced stream
index. -/
def performSearch (cfg : Config) (c : Cache) (g : Nat → String) (k : Nat)
    (searchUrl query : String) (sO : Outcome SearchBody) :
    Request × List JsError × List SearchBody × Nat :=
  let opts := (requestOptions cfg g k).1
  let k' := (requestOptions cfg g k).2
  let req : Request := { url := searchUrl ++ "/simple", headers := opts.headers,
                         qs := [("text", query)] }
  match sO with
  | .err e => (req, [.transport e], [], k')
  | .ok r =>
    if r.statusCode = some 200 then
      (req, [], [{ Results := resolveResults c r.body.Results }], k')
    else
      (req, [.mk "Search failed"], [], k')

/-- The body of `search(query, responseHandlers)` after validation: on a
warm cache `performSearch` runs directly; on a cold cache `refreshTouchmap`
runs first with `onError` forwarded and `onSuccess := performSearch`.
When the warm branch runs, `hasActionsS` guarantees `this.actions` is set,
so `st.actions.getD []` is exactly `this.actions`. -/
def searchCore (cfg : Config) (st : SCState) (g : Nat → String) (k : Nat)
    (searchUrl query : String) (now : Nat)
    (rO : Outcome TouchBody) (sO : Outcome SearchBody) :
    SCState × SearchTrace × Nat :=
  if hasActionsS st then
    let res := performSearch cfg (st.actions.getD []) g k searchUrl query sO
    (st, { requests := [res.1], refreshCount := 0, searchIssued := true,
           errors := res.2.1, successes := res.2.2.1 }, res.2.2.2)
  else
    let rres := refreshCore cfg st g k searchUrl now rO
    if rres.2.1.succeeded then
      let res := performSearch cfg (rres.1.actions.getD []) g rres.2.2 searchUrl query sO
      (rres.1, { requests := rres.2.1.requests ++ [res.1], refreshCount := 1,
                 searchIssued := true, errors := res.2.1, successes := res.2.2.1 },
       res.2.2.2)
    else
      (rres.1, { requests := rres.2.1.requests, refreshCount := 1, searchIssued := false,
                 errors := rres.2.1.errors }, rres.2.2)

/-- `search(query, responseHandlers)`: validation, then `searchCore`. -/
def search (cfg : Config) (st : SCState) (g : Nat → String) (k : Nat)
    (query : Option String) (now : Nat)
    (rO : Outcome TouchBody) (sO : Outcome SearchBody) :
    Except JsError (SCState × SearchTrace × Nat) :=
  match validateStringE query "query" with
  | .error e => .error e
  | .ok q =>
    match validateStringE cfg.endpoints.search "search endpoint" with
    | .error e => .error e
    | .ok searchUrl => .ok (searchCore cfg st g k searchUrl q now rO sO)

/-- Everything observable about one authenticated lookup call
(`getAccount` / `getStatements`), with an opaque response body `β`. -/
structure LookupTrace (β : Type) where
  requests : List Request := []
  errors : List JsError := []
  successes : List β := []
deriving DecidableEq, Repr

/-- The request-issuing part of `getAccount(responseHandlers)` (after its
validations and `isAuthenticated` guard, behind which `this.auth` is set,
so `st.auth.getD {}` is exactly `this.auth`). -/
def getAccountCore {β : Type} (cfg : Config) (st : SCState) (g : Nat → String) (k : Nat)
    (acct : String) (o : Outcome β) : LookupTrace β × Nat :=
  let opts := (requestOptions cfg g k).1
  let k' := (requestOptions cfg g k).2
  let hdrs := jsMerge opts.headers (authHeaders (st.auth.getD {}))
  let req : Request := { url := acct ++ "/account/get-by-number", headers := hdrs }
  match o with
  | .err e => ({ requests := [req], errors := [.transport e] }, k')
  | .ok r =>
    if r.statusCode = some 200 then
      ({ requests := [req], successes := [r.body] }, k')
    else
      ({ requests := [req], errors := [.mk "Account lookup failed"] }, k')

/-- `getAccount(responseHandlers)`. Validation errors and the
`isAuthenticated` precondition throw synchronously (the `Except.error`
return), before any request is issued. -/
def getAccount {β : Type} (cfg : Config) (st : SCState) (g : Nat → String) (k : Nat)
    (o : Outcome β) : Except JsError (LookupTrace β × Nat) :=
  match validateStringE cfg.endpoints.account "account endpoint" with
  | .error e => .error e
  | .ok acct =>
    if !(isAuthenticatedS st) then
      .error (.mk "An active login is required")
    else
      .ok (getAccountCore cfg st g k acct o)

/-- The request-issuing part of `getStatements(count, pdf, responseHandlers)`
of the callback-pair `SmartCare` class. Note the literal of its non-200
branch: the source constructs `new Error('Account lookup failed')` here
as well. -/
def getStatementsCore {β : Type} (cfg : Config) (st : SCState) (g : Nat → String) (k : Nat)
    (acct : String) (count : Int) (pdf : Bool) (o : Outcome β) : LookupTrace β × Nat :=
  let opts := (requestOptions cfg g k).1
  let k' := (requestOptions cfg g k).2
  let hdrs := jsMerge opts.headers (authHeaders (st.auth.getD {}))
  let path := "/" ++ (if pdf then "pdf-statement" else "bill") ++ "/" ++ toString count
  let req : Request := { url := acct ++ path, headers := hdrs }
  match o with
  | .err e => ({ requests := [req], errors := [.transport e] }, k')
  | .ok r =>
    if r.statusCode = some 200 then
      ({ requests := [req], successes := [r.body] }, k')
    else
      ({ requests := [req], errors := [.mk "Account lookup failed"] }, k')

/-- `getStatements(count, pdf, responseHandlers)`: validations, the
`isAuthenticated` guard, then the request. -/
def getStatements {β : Type} (cfg : Config) (st : SCState) (g : Nat → String) (k : Nat)
    (count : Int) (pdf : Bool) (o : Outcome β) :
    Except JsError (LookupTrace β × Nat) :=
  match validateNumberE count 1 "count" with
  | .error e => .error e
  | .ok _ =>
    match validateStringE cfg.endpoints.account "account endpoint" with
    | .error e => .error e
    | .ok acct =>
      if !(isAuthenticatedS st) then
        .error (.mk "An active login is required")
      else
        .ok (getStatementsCore cfg st g k acct count pdf o)

/-- `getStatements(count, pdf, callback)` of the continuation-callback
`SmartCare` class in `index.js`: the same flow, but its non-200 branch
constructs `new Error('Statement lookup failed')`. A `callback(err)`
invocation is an `errors` entry, `callback(null, body)` a `successes`
entry. -/
def getStatementsIndex {β : Type} (cfg : Config) (st : SCState) (g : Nat → String) (k : Nat)
    (count : Int) (pdf : Bool) (o : Outcome β) :
    Except JsError (LookupTrace β × Nat) :=
  match validateNumberE count 1 "count" with
  | .error e => .error e
  | .ok _ =>
    match validateStringE cfg.endpoints.account "account endpoint" with
    | .error e => .error e
    | .ok acct =>
      if !(isAuthenticatedS st) then
        .error (.mk "An active login is required")
      else
        let opts := (requestOptions cfg g k).1
        let k' := (requestOptions cfg g k).2
        let hdrs := jsMerge opts.headers (authHeaders (st.auth.getD {}))
        let path := "/" ++ (if pdf then "pdf-statement" else "bill") ++ "/" ++ toString count
        let req : Request := { url := acct ++ path, headers := hdrs }
        match o with
        | .err e => .ok ({ requests := [req], errors := [.transport e] }, k')
        | .ok r =>
          if r.statusCode = some 200 then
            .ok ({ requests := [req], successes := [r.body] }, k')
          else
            .ok ({ requests := [req], errors := [.mk "Statement lookup failed"] }, k')

/-! ## Shared concrete fixtures (mirroring `test/tests.js`) -/

/-- The valid configuration of the test suite. -/
def testConfig : Config :=
  { endpoints :=
      { login := some "https://t3.sc.com",
        search := some "https://s.sc.com",
        account := some "https://a.sc.com" },
    customer := "Tester",
    app := "Mocha",
    secret := "secret" }

/-- A concrete stream of pre-drawn UUIDs (the draws are pairwise distinct). -/
def gStream : Nat → String := fun n => "guid-" ++ toString n

/-- A stored token from an earlier successful login. -/
def oldAuth : AuthToken := { Value := "old", T3Token := some "OLD-TOKEN" }

/-- A token body delivered by a later (second-round) 200 response. -/
def newAuth : AuthToken := { Value := "new", T3Token := some "NEW-TOKEN" }

/-- A client state that has completed a successful login. -/
def authedState : SCState := { auth := some oldAuth }

/-- A client state with a warm touchmap cache holding one action,
`Home_Dashboard` (as in the test suite's touchmap body). -/
def warmState : SCState :=
  { actions := some (buildActions 0 [{ Name := "Home_Dashboard" }]) }

/-- A response with status 400 and a given body. -/
def status400 {β : Type} (b : β) : Outcome β :=
  .ok { statusCode := some 400, body := b }

/-! ## Association-list (JavaScript object) lemmas -/

theorem jsGet_nil {α : Type} (k : String) : jsGet ([] : List (String × α)) k = none := rfl

theorem jsGet_cons {α : Type} (a : String) (b : α) (rest : List (String × α)) (k : String) :
    jsGet ((a, b) :: rest) k = if a = k then some b else jsGet rest k := by
  by_cases h : a = k
  · subst h; simp [jsGet, List.find?]
  · simp [jsGet, List.find?, h, beq_eq_false_iff_ne.mpr h]

theorem jsGet_jsSet {α : Type} (c : List (String × α)) (k k' : String) (v : α) :
    jsGet (jsSet c k v) k' = if k' = k then some v else jsGet c k' := by
  induction c with
  | nil =>
    simp only [jsSet]
    rw [jsGet_cons]
    by_cases h : k' = k
    · simp [h]
    · simp [h, Ne.symm h, jsGet_nil]
  | cons kv rest ih =>
    obtain ⟨a, b⟩ := kv
    by_cases hak : a = k
    · subst hak
      simp only [jsSet, beq_self_eq_true, if_true]
      rw [jsGet_cons, jsGet_cons]
      by_cases hk : a = k'
      · subst hk; simp
      · simp only [if_neg hk]
        rw [if_neg (fun h => hk h.symm)]
    · simp only [jsSet, beq_eq_false_iff_ne.mpr hak, Bool.false_eq_true, if_false]
      rw [jsGet_cons, jsGet_cons]
      by_cases hk : a = k'
      · subst hk
        simp [fun h : a = k => hak h]
      · simp only [hk, if_false]
        rw [ih]

/-- The last action of a given name in a touchmap action list (the claim's
"last occurrence"). -/
def lastNamed (name : String) : List TouchAction → Option TouchAction
  | [] => none
  | a :: as =>
    match lastNamed name as with
    | some b => some b
    | none => if a.Name == name then some a else none

theorem jsGet_foldActions (acts : List TouchAction) (c : Cache) (name : String) :
    jsGet (acts.foldl (fun c a => jsSet c a.Name (CacheVal.act a)) c) name =
      match lastNamed name acts with
      | some a => some (CacheVal.act a)
      | none => jsGet c name := by
  induction acts generalizing c with
  | nil => simp [lastNamed]
  | cons a as ih =>
    simp only [List.foldl_cons, lastNamed]
    rw [ih]
    cases h : lastNamed name as with
    | some b => simp
    | none =>
      simp only [jsGet_jsSet]
      by_cases hn : a.Name = name
      · simp [hn]
      · simp [hn, Ne.symm hn]

/-! ## Claim theorems -/

/-- C10. For every successful `refreshTouchmap` and every name occurring in
the response's `Actions` list, the rebuilt cache maps that name to the action
object of its last occurrence in the list; a name with no occurrence keeps
the freshly initialised `{refreshTime: now}` binding; duplicates are neither
rejected nor reported (every 200 response yields a successful, error-free
refresh installing exactly this cache); the `refreshTime` entry set before
population is overwritten by an action literally named `refreshTime`; and
the `refreshTime` key nevertheless stays present, so `hasActions` stays
true. -/
theorem c10_cache_last_occurrence :
    (∀ now acts name a, lastNamed name acts = some a →
        jsGet (buildActions now acts) name = some (CacheVal.act a)) ∧
    (∀ now acts name, lastNamed name acts = none →
        jsGet (buildActions now acts) name =
          jsGet [("refreshTime", CacheVal.time now)] name) ∧
    (∀ cfg st g k url now (r : Response TouchBody), r.statusCode = some 200 →
        (refreshCore cfg st g k url now (.ok r)).2.1.succeeded = true ∧
        (refreshCore cfg st g k url now (.ok r)).2.1.errors = [] ∧
        (refreshCore cfg st g k url now (.ok r)).1.actions =
          some (buildActions now r.body.Actions)) ∧
    (jsGet (buildActions 5 [{ Name := "refreshTime" }]) "refreshTime" =
        some (CacheVal.act { Name := "refreshTime" })) ∧
    (∀ (now : Nat) (acts : List TouchAction) (st0 : SCState),
        hasActionsS { st0 with actions := some (buildActions now acts) } = true) := by
  refine ⟨?_, ?_, ?_, ?_, ?_⟩
  · intro now acts name a h
    simp only [buildActions, jsGet_foldActions, h]
  · intro now acts name h
    simp only [buildActions, jsGet_foldActions, h]
  · intro cfg st g k url now r h
    simp [refreshCore, h]
  · decide
  · intro now acts st0
    simp only [hasActionsS, buildActions, jsGet_foldActions]
    cases h : lastNamed "refreshTime" acts <;> simp [jsGet_cons]

/-- C10 witness: a concrete duplicate-laden action list. The cache maps
`"A"` to the second of the two actions named `"A"`, and the refresh
installing it succeeds. -/
theorem c10_cache_last_occurrence_witness :
    jsGet (buildActions 7 [{ Name := "A", fields := [("v", "1")] },
        { Name := "B" }, { Name := "A", fields := [("v", "2")] }]) "A" =
      some (CacheVal.act { Name := "A", fields := [("v", "2")] }) :=
  c10_cache_last_occurrence.1 7 _ "A" _ (by decide)

/-- C5. For every call to `search` (after validation): on a cold cache the
trace contains exactly one touchmap refresh; if that refresh fails the
search request is never issued and the call's error channel carries exactly
the refresh's errors; if it succeeds the refresh request precedes the search
request. On a warm cache zero refreshes occur and the search request is
issued directly. -/
theorem c5_cold_warm_refresh :
    ∀ cfg st g k url q now rO sO,
      (hasActionsS st = false →
        (searchCore cfg st g k url q now rO sO).2.1.refreshCount = 1 ∧
        ((refreshCore cfg st g k url now rO).2.1.succeeded = false →
          (searchCore cfg st g k url q now rO sO).2.1.searchIssued = false ∧
          (searchCore cfg st g k url q now rO sO).2.1.errors =
            (refreshCore cfg st g k url now rO).2.1.errors ∧
          (searchCore cfg st g k url q now rO sO).2.1.requests.map Request.url =
            [url ++ "/touch-map"]) ∧
        ((refreshCore cfg st g k url now rO).2.1.succeeded = true →
          (searchCore cfg st g k url q now rO sO).2.1.searchIssued = true ∧
          (searchCore cfg st g k url q now rO sO).2.1.requests.map Request.url =
            [url ++ "/touch-map", url ++ "/simple"])) ∧
      (hasActionsS st = true →
        (searchCore cfg st g k url q now rO sO).2.1.refreshCount = 0 ∧
        (searchCore cfg st g k url q now rO sO).2.1.searchIssued = true ∧
        (searchCore cfg st g k url q now rO sO).2.1.requests.map Request.url =
          [url ++ "/simple"]) := by
  intro cfg st g k url q now rO sO
  constructor
  · intro h
    cases rO with
    | err e =>
      cases sO <;> simp [searchCore, refreshCore, performSearch, h]
    | ok r =>
      by_cases h200 : r.statusCode = some 200
      · cases sO with
        | err e2 => simp [searchCore, refreshCore, performSearch, h, h200]
        | ok r2 =>
          by_cases h200b : r2.statusCode = some 200 <;>
            simp [searchCore, refreshCore, performSearch, h, h200, h200b]
      · cases sO <;> simp [searchCore, refreshCore, performSearch, h, h200]
  · intro h
    cases sO with
    | err e => simp [searchCore, performSearch, h]
    | ok r2 =>
      by_cases h200b : r2.statusCode = some 200 <;>
        simp [searchCore, performSearch, h, h200b]

/-- C5 witness: a cold-cache search whose refresh dies with a transport
error performs the one refresh, never issues the search request, and
reports exactly the refresh's error. -/
theorem c5_cold_warm_refresh_witness :
    hasActionsS ({} : SCState) = false ∧
    (searchCore testConfig {} gStream 0 "https://s.sc.com" "q" 0
        (Outcome.err "boom") (Outcome.err "unused")).2.1.refreshCount = 1 ∧
    (searchCore testConfig {} gStream 0 "https://s.sc.com" "q" 0
        (Outcome.err "boom") (Outcome.err "unused")).2.1.searchIssued = false ∧
    (searchCore testConfig {} gStream 0 "https://s.sc.com" "q" 0
        (Outcome.err "boom") (Outcome.err "unused")).2.1.errors =
      [JsError.transport "boom"] := by
  have h := (c5_cold_warm_refresh testConfig {} gStream 0 "https://s.sc.com" "q" 0
    (Outcome.err "boom") (Outcome.err "unused")).1 (by decide)
  exact ⟨by decide, h.1, (h.2.1 (by decide)).1, ((h.2.1 (by decide)).2.1).trans (by decide)⟩

/-- C2 counterexample. On a warm cache containing only `Home_Dashboard`, a
successful search whose result names the absent action `Missing` does not
leave the original string in place: the `Action` field comes back
`undefined` (the value of the failed cache lookup), not
`ActionField.str "Missing"`. -/
theorem c2_counterexample :
    (searchCore testConfig warmState gStream 0 "https://s.sc.com" "q" 0
        (Outcome.err "unused")
        (Outcome.ok ⟨some 200, [], ⟨[⟨ActionField.str "Missing", []⟩]⟩⟩)).2.1.successes =
      [⟨[⟨ActionField.undefinedVal, []⟩]⟩] ∧
    ActionField.undefinedVal ≠ ActionField.str "Missing" := by decide

/-- C2 (amended). For every successful search on a warm cache, the success
payload is the response body with each result rewritten through the cache:
an object-typed `Action` is left unchanged; a string `Action` naming a
cached action is replaced in place by the cached action object; a string
`Action` naming an absent action is overwritten with `undefined` (the
result of the failed lookup), not left as the original string. -/
theorem c2_action_resolution :
    (∀ cfg st g k url q now rO (r : Response SearchBody), hasActionsS st = true →
        r.statusCode = some 200 →
        (searchCore cfg st g k url q now rO (.ok r)).2.1.successes =
          [{ Results := resolveResults (st.actions.getD []) r.body.Results }]) ∧
    (∀ (c : Cache) (r : SearchResult) (a : TouchAction), r.Action = ActionField.obj a →
        resolveResults c [r] = [r]) ∧
    (∀ (c : Cache) (r : SearchResult) (s : String) (a : TouchAction),
        r.Action = ActionField.str s → jsGet c s = some (CacheVal.act a) →
        resolveResults c [r] = [{ r with Action := ActionField.obj a }]) ∧
    (∀ (c : Cache) (r : SearchResult) (s : String), r.Action = ActionField.str s →
        jsGet c s = none →
        resolveResults c [r] = [{ r with Action := ActionField.undefinedVal }]) := by
  refine ⟨?_, ?_, ?_, ?_⟩
  · intro cfg st g k url q now rO r h h200
    simp [searchCore, performSearch, h, h200]
  · intro c r a h
    simp [resolveResults, typeofIsObject, h]
  · intro c r s a h hc
    simp [resolveResults, typeofIsObject, h, propKey, cacheFetch, hc]
  · intro c r s h hc
    simp [resolveResults, typeofIsObject, h, propKey, cacheFetch, hc]

/-- C2 witness: on the warm test cache, a result naming the cached action
`Home_Dashboard` is rewritten in place to the cached action object. -/
theorem c2_action_resolution_witness :
    resolveResults (buildActions 0 [{ Name := "Home_Dashboard" }])
        [{ Action := ActionField.str "Home_Dashboard" }] =
      [{ Action := ActionField.obj { Name := "Home_Dashboard" } }] :=
  c2_action_resolution.2.2.1 _ _ "Home_Dashboard" _ (by decide) (by decide)

/-- C6. A login round-1 response produces the error
`new Error('Challenge not found')` on the error channel exactly when the
case-insensitive `WWW-Authenticate` lookup finds no value passing the
`/^T3Auth /i` check; and a header stored under any letter-casing of the
name is found by the lookup. -/
theorem c6_challenge_not_found :
    (∀ cfg st g k u p url (r : Response Unit) r2,
        (JsError.mk "Challenge not found") ∈
            (loginCore cfg st g k u p url (.ok r) r2).2.1.errors ↔
          challengeOk (insensitiveGet r.headers "WWW-Authenticate") = false) ∧
    (∀ (key v : String) (rest : List (String × String)),
        lowerString key = "www-authenticate" →
        insensitiveGet ((key, v) :: rest) "WWW-Authenticate" = some v) := by
  constructor
  · intro cfg st g k u p url r r2
    by_cases hc : challengeOk (insensitiveGet r.headers "WWW-Authenticate") = true
    · cases r2 with
      | err e2 => simp [loginCore, hc]
      | ok rr =>
        by_cases h200 : rr.statusCode = some 200 <;> simp [loginCore, hc, h200]
    · have hc' : challengeOk (insensitiveGet r.headers "WWW-Authenticate") = false := by
        simpa using hc
      cases r2 with
      | err e2 => simp [loginCore, hc']
      | ok rr =>
        by_cases h200 : rr.statusCode = some 200 <;> simp [loginCore, hc', h200]
  · intro key v rest h
    have hb : (lowerString key == lowerString "WWW-Authenticate") = true := by
      rw [h]; decide
    simp [insensitiveGet, List.find?, hb]

/-- C6 witness: a challenge stored under the all-lowercase header name is
found, and a response carrying it (a valid `T3Auth` challenge) never
produces the challenge error. -/
theorem c6_challenge_not_found_witness :
    insensitiveGet [("www-authenticate", "T3Auth aaa")] "WWW-Authenticate" =
      some "T3Auth aaa" :=
  c6_challenge_not_found.2 "www-authenticate" "T3Auth aaa" [] (by decide)

/-- A login run whose first response carries no `WWW-Authenticate` header
and whose second response is a 200 carrying `newAuth`. Because the source
omits `return` after `onError(new Error('Challenge not found'))`, control
falls through, the second request is issued, and the success path runs. -/
def challengelessLoginRun (st : SCState) : SCState × LoginTrace × Nat :=
  loginCore testConfig st gStream 0 "un" "pw" "https://t3.sc.com"
    (.ok { headers := [("Other-Header", "value")], body := () })
    (.ok { statusCode := some 200, body := newAuth })

/-- C4. Violated by the code: a login whose first response lacks a valid
challenge invokes `onError('Challenge not found')` but, the `return` being
missing, still issues the second request and, on a 200 second response,
also invokes `onSuccess` — both reporting channels fire for one failing
call. (The repository's own test `should call onError on missing
WWW-Authenticate` expects a single `onError`.) -/
theorem c4_both_channels_fire :
    (challengelessLoginRun {}).2.1.errors = [JsError.mk "Challenge not found"] ∧
    (challengelessLoginRun {}).2.1.successes = [newAuth] ∧
    (challengelessLoginRun {}).2.1.requests.length = 2 ∧
    (loginCore testConfig {} gStream 0 "un" "pw" "https://t3.sc.com"
        (.ok { headers := [("Other-Header", "value")], body := () })
        (.ok { statusCode := none, body := newAuth })).2.1.errors =
      [JsError.mk "Challenge not found", JsError.mk "Authentication failed"] := by
  refine ⟨?_, ?_, ?_, ?_⟩ <;> decide

/-- C7. Violated by the code: a login that fails with
`'Challenge not found'` (a failed login in the claim's sense) nevertheless
overwrites a previously stored valid auth token when the blindly issued
second round comes back 200 — the stored token is not left as it was. -/
theorem c7_failed_login_overwrites_token :
    isAuthenticatedS authedState = true ∧
    (challengelessLoginRun authedState).2.1.errors = [JsError.mk "Challenge not found"] ∧
    (challengelessLoginRun authedState).1.auth = some newAuth ∧
    some newAuth ≠ some oldAuth := by
  refine ⟨?_, ?_, ?_, ?_⟩ <;> decide

/-- C8. Whenever `isAuthenticated` is false (and the preceding argument
validations pass), `getAccount` and `getStatements` fail synchronously with
the thrown error `'An active login is required'`; the `Except.error` return
is produced before the request-issuing core runs, so zero HTTP requests are
issued. -/
theorem c8_login_required :
    (∀ (β : Type) (cfg : Config) (st : SCState) (g : Nat → String) (k : Nat)
        (o : Outcome β) (acct : String),
        validateStringE cfg.endpoints.account "account endpoint" = .ok acct →
        isAuthenticatedS st = false →
        getAccount cfg st g k o = .error (.mk "An active login is required")) ∧
    (∀ (β : Type) (cfg : Config) (st : SCState) (g : Nat → String) (k : Nat)
        (count : Int) (pdf : Bool) (o : Outcome β) (acct : String),
        validateNumberE count 1 "count" = .ok () →
        validateStringE cfg.endpoints.account "account endpoint" = .ok acct →
        isAuthenticatedS st = false →
        getStatements cfg st g k count pdf o =
          .error (.mk "An active login is required")) := by
  constructor
  · intro β cfg st g k o acct h hAuth
    simp [getAccount, h, hAuth]
  · intro β cfg st g k count pdf o acct hc h hAuth
    simp [getStatements, hc, h, hAuth]

/-- C8 witness: an unauthenticated client with the test configuration. -/
theorem c8_login_required_witness :
    validateStringE testConfig.endpoints.account "account endpoint" =
      .ok "https://a.sc.com" ∧
    isAuthenticatedS {} = false ∧
    getAccount (β := Unit) testConfig {} gStream 0 (.err "e") =
      .error (.mk "An active login is required") ∧
    getStatements (β := Unit) testConfig {} gStream 0 1 false (.err "e") =
      .error (.mk "An active login is required") :=
  ⟨rfl, rfl,
   c8_login_required.1 Unit testConfig {} gStream 0 (.err "e") "https://a.sc.com"
     rfl rfl,
   c8_login_required.2 Unit testConfig {} gStream 0 1 false (.err "e") "https://a.sc.com"
     rfl rfl rfl⟩

/-- The errors of an authenticated-lookup run that got past validation. -/
def errsOfL {β : Type} : Except JsError (LookupTrace β × Nat) → Option (List JsError)
  | .ok (tr, _) => some tr.errors
  | .error _ => none

/-- C9. The non-200 error literals, evaluated per operation: login round 2
gives `'Authentication failed'`, `refreshTouchmap` gives
`'Touchmap refresh failed'`, `search` gives `'Search failed'`, `getAccount`
gives `'Account lookup failed'` — but `getStatements` of the callback-pair
class also gives `'Account lookup failed'`, not the documented
`'Statement lookup failed'` (which only the `index.js` variant produces, and
which the repository's own test expects of the callback-pair class too). -/
theorem c9_error_message_literals :
    (loginCore testConfig {} gStream 0 "un" "pw" "https://t3.sc.com"
        (.ok { headers := [("WWW-Authenticate", "T3Auth aaa")], body := () })
        (status400 newAuth)).2.1.errors = [JsError.mk "Authentication failed"] ∧
    (refreshCore testConfig {} gStream 0 "https://s.sc.com" 0
        (status400 {})).2.1.errors = [JsError.mk "Touchmap refresh failed"] ∧
    (searchCore testConfig warmState gStream 0 "https://s.sc.com" "q" 0
        (Outcome.err "unused") (status400 {})).2.1.errors =
      [JsError.mk "Search failed"] ∧
    errsOfL (getAccount (β := Unit) testConfig authedState gStream 0 (status400 ())) =
      some [JsError.mk "Account lookup failed"] ∧
    errsOfL (getStatements (β := Unit) testConfig authedState gStream 0 1 false
        (status400 ())) = some [JsError.mk "Account lookup failed"] ∧
    ("Account lookup failed" : String) ≠ "Statement lookup failed" ∧
    errsOfL (getStatementsIndex (β := Unit) testConfig authedState gStream 0 1 false
        (status400 ())) = some [JsError.mk "Statement lookup failed"] := by
  refine ⟨?_, ?_, ?_, ?_, ?_, ?_, ?_⟩ <;> decide

/-- The token the code actually derives for the test suite's configuration
(`secret = "secret"`, `app = "Mocha"`, `customer = "Tester"`) and the session
id `15344b6f-2131-2fa9-994e-c69103be9859`: the SHA-1/Base64 of
`secret Mocha:Tester:15344b6f-2131-2fa9-994e-c69103be9859`. -/
theorem createToken_test_vector :
    createToken testConfig "15344b6f-2131-2fa9-994e-c69103be9859" =
      "0OyW0ObuyVmHzSAcOQt9dzjF4w8=" := by
  set_option maxRecDepth 100000 in decide

/-- C1 counterexample. At the claim's concrete input the derived token is
`0OyW0ObuyVmHzSAcOQt9dzjF4w8=`, not the claimed
`IX2y+8igk6nCN3iAw77tPoOTx74=` (that literal, hard-coded in a test that
never runs its assertion, is not the SHA-1/Base64 of the string the code
hashes). -/
theorem c1_counterexample :
    createToken testConfig "15344b6f-2131-2fa9-994e-c69103be9859" ≠
      "IX2y+8igk6nCN3iAw77tPoOTx74=" := by
  rw [createToken_test_vector]; decide

/-- C1 (amended). Token derivation is the deterministic, stateless function
`base64(SHA1(utf8(secret + " " + app + ":" + customer + ":" + sessionId)))`
of (secret, app, customer, sessionId) — identical inputs yield the identical
token string — and at secret=`secret`, app=`Mocha`, customer=`Tester`,
sessionId=`15344b6f-2131-2fa9-994e-c69103be9859` its value is
`0OyW0ObuyVmHzSAcOQt9dzjF4w8=`. -/
theorem c1_token_derivation :
    (∀ cfg sid, createToken cfg sid =
        base64Encode (sha1 (utf8Bytes
          (cfg.secret ++ " " ++ cfg.app ++ ":" ++ cfg.customer ++ ":" ++ sid)))) ∧
    (∀ cfga cfgb sida sidb, cfga.secret = cfgb.secret → cfga.app = cfgb.app →
        cfga.customer = cfgb.customer → sida = sidb →
        createToken cfga sida = createToken cfgb sidb) ∧
    createToken testConfig "15344b6f-2131-2fa9-994e-c69103be9859" =
      "0OyW0ObuyVmHzSAcOQt9dzjF4w8=" := by
  refine ⟨fun cfg sid => rfl, ?_, createToken_test_vector⟩
  intro cfga cfgb sida sidb h1 h2 h3 h4
  simp only [createToken, h1, h2, h3, h4]

/-- C1 witness: two configurations agreeing on (secret, app, customer) —
one of them verbose, with an unrelated session override — derive the same
token for the same session id. -/
theorem c1_token_derivation_witness :
    createToken { testConfig with verbose := true, sessionId := some "other" } "sid-w" =
      createToken testConfig "sid-w" :=
  c1_token_derivation.2.1 _ _ _ _ rfl rfl rfl rfl

theorem jsGet_jsSet_ne {α : Type} (c : List (String × α)) (k k' : String) (v : α)
    (h : k' ≠ k) : jsGet (jsSet c k v) k' = jsGet c k' := by
  rw [jsGet_jsSet, if_neg h]

theorem jsGet_requestOptions_session (cfg : Config) (g : Nat → String) (k : Nat) :
    jsGet (requestOptions cfg g k).1.headers sessionHeader =
      some (chosenSession cfg g k) := rfl

theorem chosenSession_configured (cfg : Config) (g : Nat → String) (k : Nat)
    (s : String) (h : cfg.sessionId = some s) (hne : s ≠ "") :
    chosenSession cfg g k = s := by
  simp [chosenSession, h, hne]

theorem jsGet_jsMerge_authHeaders (hs : List (String × String)) (a : AuthToken) :
    jsGet (jsMerge hs (authHeaders a)) sessionHeader = jsGet hs sessionHeader := by
  unfold jsMerge authHeaders
  by_cases h : a.AdditionalValues.length > 0
  · simp only [h, if_true, List.cons_append, List.nil_append, List.foldl_cons,
      List.foldl_nil]
    rw [jsGet_jsSet_ne _ _ _ _ (by decide), jsGet_jsSet_ne _ _ _ _ (by decide),
      jsGet_jsSet_ne _ _ _ _ (by decide), jsGet_jsSet_ne _ _ _ _ (by decide)]
  · simp only [h, if_false, List.cons_append, List.nil_append, List.append_nil,
      List.foldl_cons, List.foldl_nil]
    rw [jsGet_jsSet_ne _ _ _ _ (by decide), jsGet_jsSet_ne _ _ _ _ (by decide),
      jsGet_jsSet_ne _ _ _ _ (by decide)]

/-- Every request in the list carries the session header value `s`. -/
def allSession (reqs : List Request) (s : String) : Prop :=
  ∀ req ∈ reqs, sessionOf req = some s

theorem jsGet_authz_session (c : List (String × String)) (v : String) :
    jsGet (jsSet c "Authorization" v) sessionHeader = jsGet c sessionHeader :=
  jsGet_jsSet_ne _ _ _ _ (by decide)

theorem performSearch_request (cfg : Config) (c : Cache) (g : Nat → String) (k : Nat)
    (url q : String) (sO : Outcome SearchBody) :
    (performSearch cfg c g k url q sO).1 =
      { url := url ++ "/simple", headers := (requestOptions cfg g k).1.headers,
        qs := [("text", q)] } := by
  cases sO with
  | err e => rfl
  | ok r =>
    dsimp only [performSearch]
    split <;> rfl

theorem refreshCore_requests (cfg : Config) (st : SCState) (g : Nat → String) (k : Nat)
    (url : String) (now : Nat) (o : Outcome TouchBody) :
    (refreshCore cfg st g k url now o).2.1.requests =
      [{ url := url ++ "/touch-map", headers := (requestOptions cfg g k).1.headers }] := by
  cases o with
  | err e => rfl
  | ok r =>
    dsimp only [refreshCore]
    split <;> rfl

theorem refreshCore_index (cfg : Config) (st : SCState) (g : Nat → String) (k : Nat)
    (url : String) (now : Nat) (o : Outcome TouchBody) :
    (refreshCore cfg st g k url now o).2.2 = nextIndex cfg k := by
  cases o with
  | err e => rfl
  | ok r =>
    dsimp only [refreshCore]
    split <;> rfl

/-- C3 counterexample. An instance configured without a session id does not
use a single instance-scoped identifier for every request: one cold-cache
`search` call issues its touchmap-refresh request and its search request
with two distinct freshly drawn session ids. -/
theorem c3_counterexample :
    (searchCore testConfig {} gStream 0 "https://s.sc.com" "q" 0
        (Outcome.ok ⟨some 200, [], {}⟩)
        (Outcome.ok ⟨some 200, [], {}⟩)).2.1.requests.map sessionOf =
      [some "guid-0", some "guid-1"] ∧
    (some "guid-0" : Option String) ≠ some "guid-1" := by decide

/-- C3 (amended). With a configured non-empty session id `s`, every request
issued by every operation (login rounds, touchmap refresh, search — cold or
warm — account, statements) carries the header value `s` unchanged. Without
one, a fresh identifier is drawn from the UUID stream per
`requestOptions` call — once per operation request batch, not once per
instance — so the two rounds of a single login always share one value,
while a cold-cache search draws `g k` for its refresh request and
`g (k + 1)` for its search request. -/
theorem c3_session_usage :
    (∀ cfg s st g k u p url r1 r2, cfg.sessionId = some s → s ≠ "" →
        allSession (loginCore cfg st g k u p url r1 r2).2.1.requests s) ∧
    (∀ cfg s st g k url now o, cfg.sessionId = some s → s ≠ "" →
        allSession (refreshCore cfg st g k url now o).2.1.requests s) ∧
    (∀ cfg s st g k url q now rO sO, cfg.sessionId = some s → s ≠ "" →
        allSession (searchCore cfg st g k url q now rO sO).2.1.requests s) ∧
    (∀ (β : Type) cfg s st g k acct (o : Outcome β), cfg.sessionId = some s → s ≠ "" →
        allSession (getAccountCore cfg st g k acct o).1.requests s) ∧
    (∀ (β : Type) cfg s st g k acct count pdf (o : Outcome β), cfg.sessionId = some s →
        s ≠ "" →
        allSession (getStatementsCore cfg st g k acct count pdf o).1.requests s) ∧
    (∀ cfg st g k u p url (r : Response Unit) r2 reqa reqb,
        reqa ∈ (loginCore cfg st g k u p url (.ok r) r2).2.1.requests →
        reqb ∈ (loginCore cfg st g k u p url (.ok r) r2).2.1.requests →
        sessionOf reqa = sessionOf reqb) ∧
    (∀ cfg st g k url q now (r : Response TouchBody) sO, cfg.sessionId = none →
        hasActionsS st = false → r.statusCode = some 200 →
        (searchCore cfg st g k url q now (.ok r) sO).2.1.requests.map sessionOf =
          [some (g k), some (g (k + 1))]) := by
  refine ⟨?_, ?_, ?_, ?_, ?_, ?_, ?_⟩
  · -- login
    intro cfg s st g k u p url r1 r2 hcfg hs req hmem
    have hses : ∀ k0, chosenSession cfg g k0 = s := fun k0 =>
      chosenSession_configured cfg g k0 s hcfg hs
    cases r1 with
    | err e =>
      simp only [loginCore, List.mem_singleton] at hmem
      subst hmem
      simp [sessionOf, jsGet_requestOptions_session, hses]
    | ok r =>
      cases r2 with
      | err e2 =>
        simp only [loginCore, List.mem_cons, List.not_mem_nil, or_false] at hmem
        rcases hmem with h | h <;> subst h <;>
          simp [sessionOf, jsGet_authz_session, jsGet_requestOptions_session, hses]
      | ok rr =>
        by_cases h200 : rr.statusCode = some 200 <;>
          simp only [loginCore, h200, if_true, if_false, List.mem_cons,
            List.not_mem_nil, or_false] at hmem <;>
          rcases hmem with h | h <;> subst h <;>
            simp [sessionOf, jsGet_authz_session, jsGet_requestOptions_session, hses]
  · -- refreshTouchmap
    intro cfg s st g k url now o hcfg hs req hmem
    rw [refreshCore_requests] at hmem
    simp only [List.mem_singleton] at hmem
    subst hmem
    simp [sessionOf, jsGet_requestOptions_session,
      chosenSession_configured cfg g k s hcfg hs]
  · -- search (warm and cold)
    intro cfg s st g k url q now rO sO hcfg hs req hmem
    have hses : ∀ k0, chosenSession cfg g k0 = s := fun k0 =>
      chosenSession_configured cfg g k0 s hcfg hs
    by_cases hw : hasActionsS st
    · simp only [searchCore, hw, if_true, List.mem_singleton] at hmem
      subst hmem
      rw [performSearch_request]
      simp [sessionOf, jsGet_requestOptions_session, hses]
    · simp only [searchCore, hw, if_false, Bool.false_eq_true] at hmem
      by_cases hsucc : (refreshCore cfg st g k url now rO).2.1.succeeded
      · simp only [hsucc, if_true, refreshCore_requests, List.mem_append,
          List.mem_singleton] at hmem
        rcases hmem with h | h
        · subst h
          simp [sessionOf, jsGet_requestOptions_session, hses]
        · subst h
          rw [performSearch_request]
          simp [sessionOf, jsGet_requestOptions_session, hses]
      · simp only [hsucc, if_false, Bool.false_eq_true, refreshCore_requests,
          List.mem_singleton] at hmem
        subst hmem
        simp [sessionOf, jsGet_requestOptions_session, hses]
  · -- getAccount
    intro β cfg s st g k acct o hcfg hs req hmem
    have hses := chosenSession_configured cfg g k s hcfg hs
    cases o with
    | err e =>
      simp only [getAccountCore, List.mem_singleton] at hmem
      subst hmem
      simp [sessionOf, jsGet_jsMerge_authHeaders, jsGet_requestOptions_session, hses]
    | ok r =>
      by_cases h200 : r.statusCode = some 200 <;>
        simp only [getAccountCore, h200, if_true, if_false,
          List.mem_singleton] at hmem <;>
        subst hmem <;>
        simp [sessionOf, jsGet_jsMerge_authHeaders, jsGet_requestOptions_session, hses]
  · -- getStatements
    intro β cfg s st g k acct count pdf o hcfg hs req hmem
    have hses := chosenSession_configured cfg g k s hcfg hs
    cases o with
    | err e =>
      simp only [getStatementsCore, List.mem_singleton] at hmem
      subst hmem
      simp [sessionOf, jsGet_jsMerge_authHeaders, jsGet_requestOptions_session, hses]
    | ok r =>
      by_cases h200 : r.statusCode = some 200 <;>
        simp only [getStatementsCore, h200, if_true, if_false,
          List.mem_singleton] at hmem <;>
        subst hmem <;>
        simp [sessionOf, jsGet_jsMerge_authHeaders, jsGet_requestOptions_session, hses]
  · -- both rounds of one login share one session id
    intro cfg st g k u p url r r2 reqa reqb ha hb
    have key : ∀ req, req ∈ (loginCore cfg st g k u p url (.ok r) r2).2.1.requests →
        sessionOf req = some (chosenSession cfg g k) := by
      intro req hmem
      cases r2 with
      | err e2 =>
        simp only [loginCore, List.mem_cons, List.not_mem_nil, or_false] at hmem
        rcases hmem with h | h <;> subst h <;>
          simp [sessionOf, jsGet_authz_session, jsGet_requestOptions_session]
      | ok rr =>
        by_cases h200 : rr.statusCode = some 200 <;>
          simp only [loginCore, h200, if_true, if_false, List.mem_cons,
            List.not_mem_nil, or_false] at hmem <;>
          rcases hmem with h | h <;> subst h <;>
            simp [sessionOf, jsGet_authz_session, jsGet_requestOptions_session]
    rw [key reqa ha, key reqb hb]
  · -- unconfigured: one fresh draw per requestOptions call
    intro cfg st g k url q now r sO hnone hcold h200
    have hchoose : ∀ k0, chosenSession cfg g k0 = g k0 := by
      intro k0; simp [chosenSession, hnone]
    have hnext : nextIndex cfg k = k + 1 := by simp [nextIndex, hnone]
    have hsucc : (refreshCore cfg st g k url now (.ok r)).2.1.succeeded = true := by
      simp [refreshCore, h200]
    simp only [searchCore, hcold, Bool.false_eq_true, if_false, hsucc, if_true,
      refreshCore_requests, refreshCore_index, performSearch_request, hnext,
      List.map_append, List.map_cons, List.map_nil]
    simp [sessionOf, jsGet_requestOptions_session, hchoose]

/-- A test configuration with an explicitly configured session id. -/
def sessionConfig : Config := { testConfig with sessionId := some "sid-123" }

/-- C3 witness: with the configured session id `sid-123`, the touchmap
refresh request carries exactly that header value. -/
theorem c3_session_usage_witness :
    sessionOf ((refreshCore sessionConfig {} gStream 0 "https://s.sc.com" 0
        (Outcome.err "e")).2.1.requests.headD {}) = some "sid-123" :=
  c3_session_usage.2.1 sessionConfig "sid-123" {} gStream 0 "https://s.sc.com" 0
    (Outcome.err "e") rfl (by decide) _ (by decide)

end Smartcare
